import Mathlib

/-!
Verification of the output-interpretation layer of `cometspy/comets.py`
(the `comets` class): flux demultiplexing (`build_readable_flux_object`),
spatial grid reconstruction (`get_metabolite_image`, `get_biomass_image`,
`get_flux_image`) and the log reader (`readlines_file`).

Modelling conventions:
* numeric cell values (concentrations, biomass, fluxes) are rationals (ℚ);
  the code never computes with them, it only moves them between tables and
  grids, so ℚ is a faithful stand-in for Python floats here;
* grid coordinates and cycles in the media/biomass tables are integers,
  matching the int64 dtype pandas infers for these columns;
* pandas DataFrames are lists of rows together with an explicit column-label
  list; `loc`-filtering, column dropping and column renaming are translated
  operation by operation;
* a fallible Python operation becomes `Except ErrKind`, where `ErrKind`
  has one constructor per exception class the module defines
  (`CorruptLine`, `OutOfGrid`, `UnallocatedMetabolite`, lines 24-33 of
  comets.py) and one per Python builtin exception the code can actually
  raise (`ValueError`, `NameError`, `KeyError`, `IndexError`,
  `FileNotFoundError`).
-/

/-- Exception kinds: the three classes defined at the top of comets.py,
followed by the Python builtin exceptions its code paths can raise. -/
inductive ErrKind where
  | corruptLine : ErrKind
  | outOfGrid : ErrKind
  | unallocatedMetabolite : ErrKind
  | valueError : String → ErrKind
  | nameError : String → ErrKind
  | keyError : String → ErrKind
  | indexError : ErrKind
  | fileNotFoundError : String → ErrKind
deriving DecidableEq, Repr

/-- A COMETS model as the core reads it: a string id and the ordered
reaction-name list `reactions.REACTION_NAMES`. -/
structure Model where
  id : String
  reactions : List String
deriving DecidableEq, Repr

instance : Inhabited Model := ⟨⟨"", []⟩⟩

/-- Embedding of `readlines_file` (comets.py lines 51-55): the filesystem is
an association list from filename to the list of lines; `open` on an absent
path raises the Python builtin `FileNotFoundError`. -/
def readlines_file (fs : List (String × List String)) (filename : String) :
    Except ErrKind (List String) :=
  match fs.find? (fun p => p.1 == filename) with
  | some p => .ok p.2
  | none => .error (.fileNotFoundError filename)

/-- Column count used to read the raw flux log (comets.py line 291):
`max_rows = 4 + max([len(m.reactions) for m in self.layout.models])`.
The source variable is named `max_rows` although it counts columns; it is
meaningful only for a nonempty model list (Python `max` on an empty list
raises), for which `foldl Nat.max 0` agrees with `max`. -/
def max_rows (models : List Model) : Nat :=
  4 + (models.map (fun m => m.reactions.length)).foldl Nat.max 0

/-- The raw flux DataFrame produced by
`pd.read_csv(..., header=None, names=range(max_rows))`: integer column
labels and one list of cell values per row. -/
structure RawDF where
  cols : List Nat
  rows : List (List ℚ)
deriving DecidableEq, Repr

/-- A demultiplexed per-model flux DataFrame: string column labels
(`cycle, x, y` then reaction names) and one list of cell values per row. -/
structure FluxTable where
  cols : List String
  rows : List (List ℚ)
deriving DecidableEq, Repr

instance : Inhabited FluxTable := ⟨⟨[], []⟩⟩

/-- Position of an integer column label in a raw DataFrame (pandas selects
columns by label; for the flux frame the labels are `range(max_rows)`, so a
label's position equals the label itself). -/
def colPos (df : RawDF) (label : Nat) : Nat := df.cols.indexOf label

/-- Embedding of `self.fluxes.loc[self.fluxes[3] == model_num]`
(comets.py line 364): keep the rows whose cell in the column labelled
`label` equals `v`. -/
def locColEq (df : RawDF) (label : Nat) (v : ℚ) : RawDF :=
  ⟨df.cols, df.rows.filter (fun r => r.getD (colPos df label) 0 == v)⟩

/-- Embedding of `sub_df.drop(sub_df.columns[start:], axis=1)`
(comets.py lines 367-368): with the distinct integer labels of the raw flux
frame, dropping the labels found from position `start` on keeps exactly the
first `start` columns. -/
def dropColsFrom (df : RawDF) (start : Nat) : RawDF :=
  ⟨df.cols.take start, df.rows.map (fun r => r.take start)⟩

/-- Embedding of `sub_df.drop(sub_df.columns[idx], axis=1)`
(comets.py line 369): with the distinct integer labels of the raw flux
frame, dropping the label found at position `idx` removes exactly the
column at position `idx`. -/
def dropColAt (df : RawDF) (idx : Nat) : RawDF :=
  ⟨df.cols.eraseIdx idx, df.rows.map (fun r => r.eraseIdx idx)⟩

/-- Embedding of `sub_df.columns = [...]` (comets.py line 370): pandas
raises `ValueError` when the new name list does not match the current
column count, otherwise relabels the columns. -/
def set_columns (df : RawDF) (names : List String) : Except ErrKind FluxTable :=
  if names.length = df.cols.length then .ok ⟨names, df.rows⟩
  else .error (.valueError "Length mismatch")

/-- One iteration of the loop of `build_readable_flux_object`
(comets.py lines 356-370) for the model at 0-based position `i`:
`model_num = i + 1`, select the raw rows whose column-3 cell equals
`model_num`, drop the padding columns from position
`model_rxn_len + 4` on, drop the model-index column (position 3) and
rename the remaining columns. -/
def build_model_flux_table (fluxes : RawDF) (models : List Model) (i : Nat) :
    Except ErrKind FluxTable :=
  let model_num := i + 1
  let model_rxn_names := (models.getD (model_num - 1) default).reactions
  let model_rxn_len := model_rxn_names.length
  let sub1 := locColEq fluxes 3 ((model_num : Nat) : ℚ)
  let sub2 := dropColsFrom sub1 (model_rxn_len + 4)
  let sub3 := dropColAt sub2 3
  set_columns sub3 (["cycle", "x", "y"] ++ model_rxn_names)

/-- Python dict assignment `d[k] = v`: overwrite in place when the key is
present, append otherwise (insertion order is preserved). -/
def dict_insert (d : List (String × FluxTable)) (k : String) (v : FluxTable) :
    List (String × FluxTable) :=
  if d.any (fun p => p.1 == k) then
    d.map (fun p => if p.1 == k then (k, v) else p)
  else d ++ [(k, v)]

/-- Python dict read `d[k]` as an option (the first — and for distinct keys
only — binding of `k`). -/
def dict_lookup (d : List (String × FluxTable)) (k : String) : Option FluxTable :=
  (d.find? (fun p => p.1 == k)).map (fun p => p.2)

/-- Embedding of `build_readable_flux_object` (comets.py lines 349-371):
`self.fluxes_by_species = dict()` then one `dict` assignment per model, in
registration order. -/
def build_readable_flux_object (fluxes : RawDF) (models : List Model) :
    Except ErrKind (List (String × FluxTable)) :=
  (List.range models.length).foldlM
    (fun d i => do
      let t ← build_model_flux_table fluxes models i
      pure (dict_insert d (models.getD i default).id t))
    []

/-- What one raw flux row becomes in a per-model table with `n` reactions:
`cycle, x, y` (positions 0-2) followed by the first `n` value cells
(positions 4 to n+3); the model-index cell (position 3) and the padding
cells are gone. -/
def flux_row_project (r : List ℚ) (n : Nat) : List ℚ :=
  r.take 3 ++ (r.drop 4).take n

/-- The per-model table the demultiplexer is expected to produce for the
model at 0-based position `i`: reaction-named columns after `cycle, x, y`,
and exactly the raw rows whose column-3 cell equals `i + 1`, projected. -/
def expected_flux_table (fluxes : RawDF) (models : List Model) (i : Nat) :
    FluxTable :=
  ⟨["cycle", "x", "y"] ++ (models.getD i default).reactions,
   (fluxes.rows.filter (fun r => r.getD 3 0 == ((i + 1 : Nat) : ℚ))).map
     (fun r => flux_row_project r (models.getD i default).reactions.length)⟩

/-- The whole dictionary the demultiplexer is expected to produce: one entry
per model, in registration order. -/
def expected_flux_dict (fluxes : RawDF) (models : List Model) :
    List (String × FluxTable) :=
  (List.range models.length).map
    (fun i => ((models.getD i default).id, expected_flux_table fluxes models i))

/-- Embedding of `np.zeros((r, c))`. -/
def np_zeros (r c : Nat) : List (List ℚ) :=
  List.replicate r (List.replicate c (0 : ℚ))

/-- NumPy index resolution for axis length `n`: indices in `[0, n)` are used
as is, indices in `[-n, 0)` wrap around from the end, anything else raises
`IndexError`. -/
def np_index (n : Nat) (a : ℤ) : Option Nat :=
  if 0 ≤ a ∧ a < (n : ℤ) then some a.toNat
  else if -(n : ℤ) ≤ a ∧ a < 0 then some (a + (n : ℤ)).toNat
  else none

/-- Embedding of the NumPy assignment `im[a, b] = v` on a 2-D array. -/
def np_set (im : List (List ℚ)) (a b : ℤ) (v : ℚ) :
    Except ErrKind (List (List ℚ)) :=
  match np_index im.length a with
  | none => .error .indexError
  | some i =>
    match np_index (im.getD i []).length b with
    | none => .error .indexError
    | some j => .ok (im.set i ((im.getD i []).set j v))

/-- Reading a cell of a dense grid (0 outside the allocated area, which
never matters for grids of the declared shape). -/
def grid_get (im : List (List ℚ)) (i j : Nat) : ℚ :=
  (im.getD i []).getD j 0

/-- One record of `self.media` (comets.py lines 301-306): columns
`metabolite, cycle, x, y, conc_mmol`. -/
structure MediaRow where
  metabolite : String
  cycle : ℤ
  x : ℤ
  y : ℤ
  conc_mmol : ℚ
deriving DecidableEq, Repr

/-- Embedding of `get_metabolite_image` (comets.py lines 373-385), with the
state it reads passed explicitly: the `writeMediaLog` parameter, the layout
metabolite list, the layout grid shape and the `self.media` table. -/
def get_metabolite_image (writeMediaLog : Bool) (layout_media : List String)
    (grid : Nat × Nat) (media : List MediaRow) (met : String) (cycle : ℤ) :
    Except ErrKind (List (List ℚ)) :=
  if !writeMediaLog then
    .error (.valueError "media log was not recorded during simulation")
  else if !(layout_media.contains met) then
    .error (.nameError ("met " ++ met ++ " is not in layout.media.metabolite"))
  else if !((media.map (fun r => r.cycle)).contains cycle) then
    .error (.valueError "media was not saved at the desired cycle. try another.")
  else
    (media.filter (fun r => r.cycle == cycle && r.metabolite == met)).foldlM
      (fun im r => np_set im (r.x - 1) (r.y - 1) r.conc_mmol)
      (np_zeros grid.1 grid.2)

/-- One record of `self.biomass` (comets.py lines 312-317): columns
`cycle, x, y, species, biomass`. -/
structure BiomassRow where
  cycle : ℤ
  x : ℤ
  y : ℤ
  species : ℤ
  biomass : ℚ
deriving DecidableEq, Repr

/-- Pandas row access `row[col]` on a biomass record: the five named
columns exist, every other key raises `KeyError`. -/
def biomass_row_get (r : BiomassRow) (col : String) : Except ErrKind ℚ :=
  if col == "cycle" then .ok (r.cycle : ℚ)
  else if col == "x" then .ok (r.x : ℚ)
  else if col == "y" then .ok (r.y : ℚ)
  else if col == "species" then .ok (r.species : ℚ)
  else if col == "biomass" then .ok r.biomass
  else .error (.keyError col)

/-- Embedding of `get_biomass_image` (comets.py lines 387-398). Note that
the loop body reads `row[model_id]`, a column that the biomass table does
not have. -/
def get_biomass_image (writeBiomassLog : Bool) (model_ids : List String)
    (grid : Nat × Nat) (biomass : List BiomassRow) (model_id : String)
    (cycle : ℤ) : Except ErrKind (List (List ℚ)) :=
  if !writeBiomassLog then
    .error (.valueError "biomass log was not recorded during simulation")
  else if !(model_ids.contains model_id) then
    .error (.nameError ("model " ++ model_id ++ " is not one of the model ids"))
  else if !((biomass.map (fun r => r.cycle)).contains cycle) then
    .error (.valueError "biomass was not saved at the desired cycle. try another.")
  else
    (biomass.filter (fun r => r.cycle == cycle)).foldlM
      (fun im r => do
        let v ← biomass_row_get r model_id
        np_set im (r.x - 1) (r.y - 1) v)
      (np_zeros grid.1 grid.2)

/-- Pandas column access `t[col]` on a per-model flux table: the list of
that column's cells, or `KeyError` when the label is absent. -/
def flux_table_col (t : FluxTable) (col : String) : Except ErrKind (List ℚ) :=
  if t.cols.contains col then
    .ok (t.rows.map (fun r => r.getD (t.cols.indexOf col) 0))
  else .error (.keyError col)

/-- Pandas row access `row[col]` on a per-model flux table row. -/
def flux_row_get (t : FluxTable) (r : List ℚ) (col : String) :
    Except ErrKind ℚ :=
  if t.cols.contains col then .ok (r.getD (t.cols.indexOf col) 0)
  else .error (.keyError col)

/-- Python `int()` on a rational: truncation toward zero. -/
def pyInt (q : ℚ) : ℤ := q.num.tdiv q.den

/-- Embedding of `get_flux_image` (comets.py lines 400-415), with
`self.fluxes_by_species` passed explicitly. -/
def get_flux_image (writeFluxLog : Bool) (model_ids : List String)
    (grid : Nat × Nat) (fluxes_by_species : List (String × FluxTable))
    (model_id : String) (reaction_id : String) (cycle : ℚ) :
    Except ErrKind (List (List ℚ)) :=
  if !writeFluxLog then
    .error (.valueError "flux log was not recorded during simulation")
  else if !(model_ids.contains model_id) then
    .error (.nameError ("model " ++ model_id ++ " is not one of the model ids"))
  else
    match dict_lookup fluxes_by_species model_id with
    | none => .error (.keyError model_id)
    | some t =>
      match flux_table_col t "cycle" with
      | .error e => .error e
      | .ok cycles =>
        if !(cycles.contains cycle) then
          .error (.valueError "flux was not saved at the desired cycle. try another.")
        else if !(t.cols.contains reaction_id) then
          .error (.nameError ("reaction_id " ++ reaction_id ++
            " is not a reaction in the desired model"))
        else
          (t.rows.filter
              (fun r => r.getD (t.cols.indexOf "cycle") 0 == cycle)).foldlM
            (fun im r => do
              let x ← flux_row_get t r "x"
              let y ← flux_row_get t r "y"
              let v ← flux_row_get t r reaction_id
              np_set im (pyInt (x - 1)) (pyInt (y - 1)) v)
            (np_zeros grid.1 grid.2)

/-- A concrete two-model layout: model A with 3 reactions and model B with
5 reactions (the spec's end-to-end flux scenario). -/
def modelsAB : List Model :=
  [⟨"modA", ["r1", "r2", "r3"]⟩, ⟨"modB", ["s1", "s2", "s3", "s4", "s5"]⟩]

/-- A concrete raw flux frame for `modelsAB`: 9 named columns and a single
row `cycle=1, x=1, y=1, model_idx=1, v0..v4 = 10..50`. -/
def fluxRawAB : RawDF :=
  ⟨List.range 9, [[1, 1, 1, 1, 10, 20, 30, 40, 50]]⟩

/-- A concrete one-model layout whose model has no reactions. -/
def modelsEmptyRxn : List Model := [⟨"mEmpty", []⟩]

/-- A concrete raw flux frame for `modelsEmptyRxn`: 4 named columns, one
row. -/
def fluxRawEmptyRxn : RawDF := ⟨List.range 4, [[0, 1, 1, 1]]⟩

/-- A concrete media table: one glucose record at cycle 3, cell (2, 5),
concentration 7.5 (the spec's grid-reconstruction example). -/
def mediaGlc : List MediaRow := [⟨"glc", 3, 2, 5, 7.5⟩]

/-- A concrete media table holding a record with `x = 0` (outside the
1-based coordinate convention). -/
def mediaZeroX : List MediaRow := [⟨"glc", 1, 0, 2, 4⟩]

/-- A concrete spatial biomass table: one record at cycle 0, cell (1, 1). -/
def biomassSample : List BiomassRow := [⟨0, 1, 1, 0, 2⟩]

/-! ### Helper lemmas -/

/-- An initial accumulator never exceeds a `foldl Nat.max`. -/
lemma foldl_max_init_le (l : List ℕ) : ∀ b : ℕ, b ≤ l.foldl Nat.max b := by
  induction l with
  | nil => intro b; simp
  | cons x xs ih =>
    intro b
    exact le_trans (Nat.le_max_left b x) (ih (Nat.max b x))

/-- Every member of a list is bounded by its `foldl Nat.max`. -/
lemma mem_le_foldl_max {a : ℕ} {l : List ℕ} (h : a ∈ l) :
    ∀ b : ℕ, a ≤ l.foldl Nat.max b := by
  induction l with
  | nil => cases h
  | cons x xs ih =>
    intro b
    rcases List.mem_cons.mp h with h1 | h2
    · subst h1
      exact le_trans (Nat.le_max_right b a) (foldl_max_init_le xs (Nat.max b a))
    · exact ih h2 (Nat.max b x)

/-- On `List.range n` the predicate `· == k` first fires at position `k`. -/
lemma findIdx_range {k n : ℕ} (h : k < n) :
    (List.range n).findIdx (fun x => x == k) = k := by
  induction n with
  | zero => omega
  | succ n ih =>
    rw [List.range_succ, List.findIdx_append]
    by_cases hk : k < n
    · rw [ih hk]
      simp [List.length_range, hk]
    · have hk' : k = n := by omega
      subst hk'
      have hfull : (List.range k).findIdx (fun x => x == k) = (List.range k).length := by
        rw [List.findIdx_eq_length]
        intro x hx
        have : x < k := List.mem_range.mp hx
        simp [Nat.ne_of_lt this]
      rw [hfull]
      simp [List.length_range, List.findIdx_cons]

/-- In `List.range n` the label `k < n` sits at position `k`. -/
lemma indexOf_range {k n : ℕ} (h : k < n) : (List.range n).indexOf k = k := by
  have := findIdx_range h
  simpa [List.indexOf] using this

/-- The reaction count of any listed model fits under `max_rows`. -/
lemma reaction_len_le (models : List Model) {i : ℕ} (hi : i < models.length) :
    (models.getD i default).reactions.length + 4 ≤ max_rows models := by
  have hmem : (models.getD i default).reactions.length ∈
      models.map (fun m => m.reactions.length) := by
    rw [List.getD_eq_getElem _ _ hi]
    exact List.mem_map_of_mem _ (List.getElem_mem hi)
  have := mem_le_foldl_max hmem 0
  unfold max_rows
  omega

/-- Removing position 3 of a row truncated to `n + 4` cells is exactly the
projection that keeps `cycle, x, y` and the first `n` value cells. -/
lemma eraseIdx_take_eq_project (r : List ℚ) (n : ℕ) :
    (r.take (n + 4)).eraseIdx 3 = flux_row_project r n := by
  rw [List.eraseIdx_eq_take_drop_succ, List.take_take, List.drop_take]
  simp [flux_row_project]

/-- The loop body of `build_readable_flux_object` computes the expected
per-model table and never fails. -/
lemma build_model_flux_table_eq (fluxes : RawDF) (models : List Model) (i : ℕ)
    (hi : i < models.length)
    (hcols : fluxes.cols = List.range (max_rows models)) :
    build_model_flux_table fluxes models i =
      .ok (expected_flux_table fluxes models i) := by
  have h4 : (models.getD i default).reactions.length + 4 ≤ max_rows models :=
    reaction_len_le models hi
  have h3 : (3 : ℕ) < max_rows models := by unfold max_rows; omega
  have hpos : colPos fluxes 3 = 3 := by
    rw [colPos, hcols, indexOf_range h3]
  have hif : (3 : ℕ) < (models.getD i default).reactions.length + 4 := by omega
  unfold build_model_flux_table locColEq dropColsFrom dropColAt set_columns
  simp only [hpos, hcols, Nat.add_sub_cancel]
  rw [List.length_eraseIdx, List.length_take, List.length_range,
      min_eq_left h4, if_pos hif]
  rw [if_pos (by simp [List.length_append])]
  unfold expected_flux_table
  congr 1
  simp only [FluxTable.mk.injEq, List.map_map, true_and]
  apply List.map_congr_left
  intro r _
  exact eraseIdx_take_eq_project r (models.getD i default).reactions.length

/-- Binding an `Except.ok` just applies the continuation. -/
lemma except_bind_ok {α β : Type} (a : α) (f : α → Except ErrKind β) :
    (Except.ok a >>= f) = f a := rfl

/-- Folding a single element is one step. -/
lemma foldlM_singleton {β α : Type} (step : β → α → Except ErrKind β) (b : β)
    (a : α) : List.foldlM step b [a] = step b a := by
  rw [List.foldlM_cons]
  simp only [List.foldlM_nil]
  cases h : step b a <;> rfl

/-- Inserting a fresh key into a Python dict appends the binding. -/
lemma dict_insert_new (d : List (String × FluxTable)) (k : String) (v : FluxTable)
    (h : ∀ p ∈ d, p.1 ≠ k) : dict_insert d k v = d ++ [(k, v)] := by
  have hany : d.any (fun p => p.1 == k) = false := by
    rw [List.any_eq_false]
    intro p hp
    simpa using h p hp
  simp [dict_insert, hany]

/-- Reading every position of a list back in order reproduces the list. -/
lemma range_map_getD {α : Type} (l : List α) (d : α) :
    (List.range l.length).map (fun i => l.getD i d) = l := by
  induction l with
  | nil => simp
  | cons a t ih =>
    rw [List.length_cons, List.range_succ_eq_map, List.map_cons, List.map_map]
    have hstep : ∀ i ∈ List.range t.length,
        ((fun i => (a :: t).getD i d) ∘ Nat.succ) i = t.getD i d := by
      intro i _
      rfl
    rw [List.map_congr_left hstep, ih]
    rfl

/-- With distinct model ids, positions determine ids injectively. -/
lemma nodup_map_id_ne (models : List Model)
    (hnodup : (models.map Model.id).Nodup) {j n : ℕ}
    (hj : j < models.length) (hn : n < models.length) (hne : j ≠ n) :
    (models.getD j default).id ≠ (models.getD n default).id := by
  intro he
  have hj2 : j < (models.map Model.id).length := by simpa using hj
  have hn2 : n < (models.map Model.id).length := by simpa using hn
  have key : (models.map Model.id)[j] = (models.map Model.id)[n] := by
    rw [List.getElem_map, List.getElem_map,
        ← List.getD_eq_getElem models default hj,
        ← List.getD_eq_getElem models default hn]
    exact he
  exact hne (hnodup.getElem_inj_iff.mp key)

/-- In an association list with distinct keys, `find?` returns the unique
binding of a present key. -/
lemma find_first_of_nodup (l : List (String × FluxTable)) (k : String)
    (v : FluxTable) (hnd : (l.map Prod.fst).Nodup) (hmem : (k, v) ∈ l) :
    l.find? (fun p => p.1 == k) = some (k, v) := by
  induction l with
  | nil => cases hmem
  | cons p t ih =>
    rw [List.map_cons, List.nodup_cons] at hnd
    rcases List.mem_cons.mp hmem with h1 | h2
    · rw [← h1]
      simp [List.find?_cons]
    · have hne : p.1 ≠ k := by
        intro he
        exact hnd.1 (he ▸ List.mem_map_of_mem Prod.fst h2)
      rw [List.find?_cons]
      have hpk : (p.1 == k) = false := by simpa using hne
      rw [hpk]
      exact ih hnd.2 h2

/-- Keys of the expected dictionary are the model ids in registration
order. -/
lemma expected_dict_keys (fluxes : RawDF) (models : List Model) :
    (expected_flux_dict fluxes models).map Prod.fst = models.map Model.id := by
  unfold expected_flux_dict
  rw [List.map_map]
  have hstep : ∀ i ∈ List.range models.length,
      (Prod.fst ∘ fun i =>
        ((models.getD i default).id, expected_flux_table fluxes models i)) i =
      (fun j => (models.map Model.id).getD j "") i := by
    intro i _
    show (models.getD i default).id = (models.map Model.id).getD i ""
    exact (List.getD_map models default Model.id).symm
  rw [List.map_congr_left hstep]
  have hl : models.length = (models.map Model.id).length :=
    (List.length_map _ _).symm
  rw [hl, range_map_getD]

/-- The demultiplexer loop, run over the first `n` models, produces the
first `n` expected entries in order. -/
lemma build_prefix (fluxes : RawDF) (models : List Model)
    (hcols : fluxes.cols = List.range (max_rows models))
    (hnodup : (models.map Model.id).Nodup) :
    ∀ n, n ≤ models.length →
      (List.range n).foldlM
        (fun d i => do
          let t ← build_model_flux_table fluxes models i
          pure (dict_insert d (models.getD i default).id t))
        ([] : List (String × FluxTable)) =
      .ok ((List.range n).map
        (fun i =>
          ((models.getD i default).id, expected_flux_table fluxes models i))) := by
  intro n
  induction n with
  | zero =>
    intro _
    rw [List.range_zero, List.foldlM_nil]
    rfl
  | succ n ih =>
    intro hn
    rw [List.range_succ, List.foldlM_append, ih (by omega), except_bind_ok,
        foldlM_singleton]
    rw [build_model_flux_table_eq fluxes models n (by omega) hcols,
        except_bind_ok]
    rw [dict_insert_new]
    · rw [List.map_append]
      rfl
    · intro p hp
      rcases List.mem_map.mp hp with ⟨j, hj, hpj⟩
      rw [← hpj]
      exact nodup_map_id_ne models hnodup
        (lt_of_lt_of_le (List.mem_range.mp hj) (by omega)) (by omega)
        (Nat.ne_of_lt (List.mem_range.mp hj))

/-- Under distinct model ids and the raw flux frame read with
`range(max_rows)` labels, the demultiplexer succeeds and produces exactly
the expected dictionary. -/
lemma build_readable_eq (fluxes : RawDF) (models : List Model)
    (hcols : fluxes.cols = List.range (max_rows models))
    (hnodup : (models.map Model.id).Nodup) :
    build_readable_flux_object fluxes models =
      .ok (expected_flux_dict fluxes models) := by
  unfold build_readable_flux_object expected_flux_dict
  exact build_prefix fluxes models hcols hnodup models.length le_rfl

/-- Looking up a model id in the expected dictionary returns that model's
expected table. -/
lemma dict_lookup_expected (fluxes : RawDF) (models : List Model)
    (hnodup : (models.map Model.id).Nodup) {i : ℕ} (hi : i < models.length) :
    dict_lookup (expected_flux_dict fluxes models) (models.getD i default).id =
      some (expected_flux_table fluxes models i) := by
  unfold dict_lookup
  rw [find_first_of_nodup]
  · rfl
  · rw [expected_dict_keys]
    exact hnodup
  · unfold expected_flux_dict
    exact List.mem_map.mpr ⟨i, List.mem_range.mpr hi, rfl⟩

/-- Shape: `np.zeros((r, c))` has `r` rows. -/
lemma np_zeros_length (r c : ℕ) : (np_zeros r c).length = r := by
  simp [np_zeros]

/-- Shape: every allocated row of `np.zeros((r, c))` has `c` cells. -/
lemma np_zeros_getD (r c : ℕ) {i : ℕ} (hi : i < r) :
    (np_zeros r c).getD i [] = List.replicate c (0 : ℚ) := by
  simp [np_zeros, List.getD_eq_getElem?_getD, List.getElem?_replicate, hi]

/-- Every cell of the zero grid reads zero. -/
lemma grid_get_np_zeros (r c a b : ℕ) : grid_get (np_zeros r c) a b = 0 := by
  unfold grid_get np_zeros
  simp only [List.getD_eq_getElem?_getD, List.getElem?_replicate]
  by_cases ha : a < r <;> by_cases hb : b < c <;> simp [ha, hb]

/-- NumPy index resolution on an in-range nonnegative index. -/
lemma np_index_of_nonneg (n : ℕ) (a : ℤ) (h0 : 0 ≤ a) (hlt : a < (n : ℤ)) :
    np_index n a = some a.toNat := by
  simp [np_index, h0, hlt]

/-- NumPy index resolution wraps `-1` to the last position. -/
lemma np_index_neg_one (n : ℕ) (hn : 1 ≤ n) :
    np_index n (-1) = some (n - 1) := by
  unfold np_index
  rw [if_neg (by omega), if_pos (by constructor <;> omega)]
  congr 1
  omega

/-- A NumPy 2-D assignment with in-range nonnegative indices. -/
lemma np_set_ok (im : List (List ℚ)) (a b : ℤ) (v : ℚ)
    (ha0 : 0 ≤ a) (halt : a < (im.length : ℤ))
    (hb0 : 0 ≤ b) (hblt : b < ((im.getD a.toNat []).length : ℤ)) :
    np_set im a b v =
      .ok (im.set a.toNat ((im.getD a.toNat []).set b.toNat v)) := by
  unfold np_set
  rw [np_index_of_nonneg _ _ ha0 halt]
  dsimp only
  rw [np_index_of_nonneg _ _ hb0 hblt]

/-- A NumPy assignment can only fail with `IndexError`. -/
lemma np_set_error (im : List (List ℚ)) (a b : ℤ) (v : ℚ) (e : ErrKind)
    (h : np_set im a b v = .error e) : e = .indexError := by
  unfold np_set at h
  split at h
  · exact (Except.error.injEq _ _).mp h.symm
  · split at h
    · exact (Except.error.injEq _ _).mp h.symm
    · cases h

/-- Reading a cell of the zero grid after one in-range write: the written
cell holds the written value, everything else stays zero. -/
lemma grid_get_set_zeros (r c i j : ℕ) (v : ℚ) (hi : i < r) (hj : j < c)
    (a b : ℕ) :
    grid_get ((np_zeros r c).set i ((List.replicate c (0 : ℚ)).set j v)) a b =
      if a = i ∧ b = j then v else 0 := by
  unfold grid_get
  by_cases hai : a = i
  · subst hai
    have hrow : ((np_zeros r c).set a ((List.replicate c (0 : ℚ)).set j v)).getD a [] =
        (List.replicate c (0 : ℚ)).set j v := by
      rw [List.getD_eq_getElem?_getD,
          List.getElem?_set_self (by rw [np_zeros_length]; exact hi),
          Option.getD_some]
    rw [hrow]
    by_cases hbj : b = j
    · subst hbj
      rw [List.getD_eq_getElem?_getD,
          List.getElem?_set_self (by rw [List.length_replicate]; exact hj),
          Option.getD_some, if_pos ⟨rfl, rfl⟩]
    · rw [List.getD_eq_getElem?_getD, List.getElem?_set_ne (fun h => hbj h.symm),
          List.getElem?_replicate]
      by_cases hb : b < c
      · rw [if_pos hb, Option.getD_some]
        exact (if_neg (fun h => hbj h.2)).symm
      · rw [if_neg hb, Option.getD_none]
        exact (if_neg (fun h => hbj h.2)).symm
  · have hrow : ((np_zeros r c).set i ((List.replicate c (0 : ℚ)).set j v)).getD a [] =
        (np_zeros r c).getD a [] := by
      rw [List.getD_eq_getElem?_getD, List.getElem?_set_ne (fun h => hai h.symm),
          ← List.getD_eq_getElem?_getD]
    rw [hrow, if_neg (fun h => hai h.1)]
    exact grid_get_np_zeros r c a b

/-- A `foldlM` whose step only fails with errors satisfying `P` itself only
fails with errors satisfying `P`. -/
lemma foldlM_error_step {β α : Type} (step : β → α → Except ErrKind β)
    (P : ErrKind → Prop) (hstep : ∀ b a e, step b a = .error e → P e) :
    ∀ (l : List α) (b : β) (e : ErrKind),
      List.foldlM step b l = .error e → P e := by
  intro l
  induction l with
  | nil =>
    intro b e h
    rw [List.foldlM_nil] at h
    exact Except.noConfusion h
  | cons a t ih =>
    intro b e h
    rw [List.foldlM_cons] at h
    cases hs : step b a with
    | error e2 =>
      rw [hs] at h
      have h2 : (Except.error e2 : Except ErrKind β) = .error e := h
      have he : e2 = e := (Except.error.injEq _ _).mp h2
      exact he ▸ hstep b a e2 hs
    | ok b2 =>
      rw [hs] at h
      exact ih b2 e h

/-! ### Claim theorems -/

/-- C1: flux demultiplexing is partition-complete. For every model at
1-based position `i + 1` in the layout's model list (given distinct model
ids and the raw frame read with `range(max_rows)` column labels), the
demultiplexer succeeds and the table keyed by that model's id holds exactly
the raw rows whose model-index column (column 3) equals `i + 1`, and its
column count is 3 plus that model's reaction count, so the value columns
match the reaction count exactly. -/
theorem flux_demux_partition_complete
    (fluxes : RawDF) (models : List Model) (i : ℕ) (hi : i < models.length)
    (hcols : fluxes.cols = List.range (max_rows models))
    (hnodup : (models.map Model.id).Nodup) :
    ∃ d, build_readable_flux_object fluxes models = .ok d ∧
      dict_lookup d (models.getD i default).id =
        some (expected_flux_table fluxes models i) ∧
      (expected_flux_table fluxes models i).rows =
        (fluxes.rows.filter (fun r => r.getD 3 0 == ((i + 1 : Nat) : ℚ))).map
          (fun r => flux_row_project r (models.getD i default).reactions.length) ∧
      (expected_flux_table fluxes models i).cols.length =
        3 + (models.getD i default).reactions.length := by
  refine ⟨expected_flux_dict fluxes models,
    build_readable_eq fluxes models hcols hnodup,
    dict_lookup_expected fluxes models hnodup hi, rfl, ?_⟩
  simp [expected_flux_table]
  omega

/-- Witness for C1 at the concrete two-model layout and one-row flux
frame. -/
theorem flux_demux_partition_complete_witness :
    (0 : ℕ) < modelsAB.length ∧
    fluxRawAB.cols = List.range (max_rows modelsAB) ∧
    (modelsAB.map Model.id).Nodup ∧
    (∃ d, build_readable_flux_object fluxRawAB modelsAB = .ok d ∧
      dict_lookup d (modelsAB.getD 0 default).id =
        some (expected_flux_table fluxRawAB modelsAB 0) ∧
      (expected_flux_table fluxRawAB modelsAB 0).rows =
        (fluxRawAB.rows.filter
            (fun r => r.getD 3 0 == ((0 + 1 : Nat) : ℚ))).map
          (fun r => flux_row_project r
            (modelsAB.getD 0 default).reactions.length) ∧
      (expected_flux_table fluxRawAB modelsAB 0).cols.length =
        3 + (modelsAB.getD 0 default).reactions.length) :=
  ⟨by decide, by decide, by decide,
    flux_demux_partition_complete fluxRawAB modelsAB 0 (by decide) (by decide)
      (by decide)⟩

/-- C2: demultiplexed column naming and padding removal. The per-model
table's columns are `cycle, x, y` followed by that model's reaction names
in the model's order; each kept row drops the model-index cell and every
cell beyond `4 + reaction_count`; and on the concrete 3-reaction /
5-reaction layout the raw frame is read with `max_rows = 9` named columns
while the 3-reaction model's row keeps exactly the value cells v0, v1, v2
(here 10, 20, 30). -/
theorem flux_demux_column_naming
    (fluxes : RawDF) (models : List Model) (i : ℕ) (hi : i < models.length)
    (hcols : fluxes.cols = List.range (max_rows models))
    (hnodup : (models.map Model.id).Nodup) :
    (∃ d, build_readable_flux_object fluxes models = .ok d ∧
      dict_lookup d (models.getD i default).id =
        some (expected_flux_table fluxes models i) ∧
      (expected_flux_table fluxes models i).cols =
        ["cycle", "x", "y"] ++ (models.getD i default).reactions ∧
      (expected_flux_table fluxes models i).rows =
        (fluxes.rows.filter (fun r => r.getD 3 0 == ((i + 1 : Nat) : ℚ))).map
          (fun r => r.take 3 ++
            (r.drop 4).take (models.getD i default).reactions.length)) ∧
    max_rows modelsAB = 9 ∧
    (∃ d2, build_readable_flux_object fluxRawAB modelsAB = .ok d2 ∧
      dict_lookup d2 "modA" =
        some ⟨["cycle", "x", "y", "r1", "r2", "r3"],
              [[1, 1, 1, 10, 20, 30]]⟩) := by
  refine ⟨⟨expected_flux_dict fluxes models,
    build_readable_eq fluxes models hcols hnodup,
    dict_lookup_expected fluxes models hnodup hi, rfl, rfl⟩, by decide, ?_⟩
  refine ⟨expected_flux_dict fluxRawAB modelsAB,
    build_readable_eq fluxRawAB modelsAB (by decide) (by decide), ?_⟩
  decide

/-- Witness for C2 at the concrete two-model layout. -/
theorem flux_demux_column_naming_witness :
    (1 : ℕ) < modelsAB.length ∧
    fluxRawAB.cols = List.range (max_rows modelsAB) ∧
    (modelsAB.map Model.id).Nodup ∧
    ((∃ d, build_readable_flux_object fluxRawAB modelsAB = .ok d ∧
      dict_lookup d (modelsAB.getD 1 default).id =
        some (expected_flux_table fluxRawAB modelsAB 1) ∧
      (expected_flux_table fluxRawAB modelsAB 1).cols =
        ["cycle", "x", "y"] ++ (modelsAB.getD 1 default).reactions ∧
      (expected_flux_table fluxRawAB modelsAB 1).rows =
        (fluxRawAB.rows.filter
            (fun r => r.getD 3 0 == ((1 + 1 : Nat) : ℚ))).map
          (fun r => r.take 3 ++
            (r.drop 4).take (modelsAB.getD 1 default).reactions.length)) ∧
    max_rows modelsAB = 9 ∧
    (∃ d2, build_readable_flux_object fluxRawAB modelsAB = .ok d2 ∧
      dict_lookup d2 "modA" =
        some ⟨["cycle", "x", "y", "r1", "r2", "r3"],
              [[1, 1, 1, 10, 20, 30]]⟩)) :=
  ⟨by decide, by decide, by decide,
    flux_demux_column_naming fluxRawAB modelsAB 1 (by decide) (by decide)
      (by decide)⟩

/-- C7: a model with an empty reaction list demultiplexes without failing,
to a table whose only columns are `cycle, x, y`. -/
theorem flux_demux_zero_reactions
    (fluxes : RawDF) (models : List Model) (i : ℕ) (hi : i < models.length)
    (hcols : fluxes.cols = List.range (max_rows models))
    (hnodup : (models.map Model.id).Nodup)
    (hz : (models.getD i default).reactions = []) :
    ∃ d t, build_readable_flux_object fluxes models = .ok d ∧
      dict_lookup d (models.getD i default).id = some t ∧
      t.cols = ["cycle", "x", "y"] := by
  refine ⟨expected_flux_dict fluxes models, expected_flux_table fluxes models i,
    build_readable_eq fluxes models hcols hnodup,
    dict_lookup_expected fluxes models hnodup hi, ?_⟩
  unfold expected_flux_table
  rw [hz]
  rfl

/-- Witness for C7 at the concrete zero-reaction layout. -/
theorem flux_demux_zero_reactions_witness :
    (0 : ℕ) < modelsEmptyRxn.length ∧
    fluxRawEmptyRxn.cols = List.range (max_rows modelsEmptyRxn) ∧
    (modelsEmptyRxn.map Model.id).Nodup ∧
    (modelsEmptyRxn.getD 0 default).reactions = [] ∧
    (∃ d t, build_readable_flux_object fluxRawEmptyRxn modelsEmptyRxn = .ok d ∧
      dict_lookup d (modelsEmptyRxn.getD 0 default).id = some t ∧
      t.cols = ["cycle", "x", "y"]) :=
  ⟨by decide, by decide, by decide, by decide,
    flux_demux_zero_reactions fluxRawEmptyRxn modelsEmptyRxn 0 (by decide)
      (by decide) (by decide) (by decide)⟩

/-- C10: with distinct model ids, `fluxes_by_species` holds exactly one
entry per model, keyed by model id in registration order, and a model with
no matching raw rows gets an empty (zero-row) table. -/
theorem fluxes_by_species_one_entry_per_model
    (fluxes : RawDF) (models : List Model)
    (hcols : fluxes.cols = List.range (max_rows models))
    (hnodup : (models.map Model.id).Nodup) :
    ∃ d, build_readable_flux_object fluxes models = .ok d ∧
      d.map Prod.fst = models.map Model.id ∧
      d.length = models.length ∧
      ∀ i, i < models.length →
        fluxes.rows.filter (fun r => r.getD 3 0 == ((i + 1 : Nat) : ℚ)) = [] →
        (d.getD i default).2.rows = [] := by
  refine ⟨expected_flux_dict fluxes models,
    build_readable_eq fluxes models hcols hnodup,
    expected_dict_keys fluxes models, ?_, ?_⟩
  · unfold expected_flux_dict
    simp
  · intro i hi hempty
    have hlen : i < (expected_flux_dict fluxes models).length := by
      unfold expected_flux_dict
      simpa using hi
    rw [List.getD_eq_getElem _ _ hlen]
    unfold expected_flux_dict
    rw [List.getElem_map]
    show (expected_flux_table fluxes models ((List.range models.length).get _)).rows = []
    rw [List.get_eq_getElem, List.getElem_range]
    unfold expected_flux_table
    rw [hempty]
    rfl

/-- Witness for C10: on the concrete two-model layout, model B (index 1)
has no matching raw rows and gets an empty table. -/
theorem fluxes_by_species_one_entry_per_model_witness :
    fluxRawAB.cols = List.range (max_rows modelsAB) ∧
    (modelsAB.map Model.id).Nodup ∧
    (∃ d, build_readable_flux_object fluxRawAB modelsAB = .ok d ∧
      d.map Prod.fst = modelsAB.map Model.id ∧
      d.length = modelsAB.length ∧
      ∀ i, i < modelsAB.length →
        fluxRawAB.rows.filter (fun r => r.getD 3 0 == ((i + 1 : Nat) : ℚ)) = [] →
        (d.getD i default).2.rows = []) :=
  ⟨by decide, by decide,
    fluxes_by_species_one_entry_per_model fluxRawAB modelsAB (by decide)
      (by decide)⟩

/-- Single-record coordinate correctness for `get_metabolite_image`: with
exactly one matching record and in-range 1-based coordinates, the grid
holds the record's value at 0-based cell (x-1, y-1) and zero elsewhere. -/
lemma metabolite_image_single_record
    (layout_media : List String) (nrows ncols : ℕ) (media : List MediaRow)
    (met : String) (cycle : ℤ) (rec : MediaRow)
    (hmet : layout_media.contains met = true)
    (hfilter : media.filter
        (fun r => r.cycle == cycle && r.metabolite == met) = [rec])
    (hx1 : 1 ≤ rec.x) (hxr : rec.x ≤ (nrows : ℤ))
    (hy1 : 1 ≤ rec.y) (hyc : rec.y ≤ (ncols : ℤ)) :
    ∃ im, get_metabolite_image true layout_media (nrows, ncols) media met cycle
        = .ok im ∧
      ∀ a b : ℕ, grid_get im a b =
        if a = (rec.x - 1).toNat ∧ b = (rec.y - 1).toNat then rec.conc_mmol
        else 0 := by
  have hrecmem : rec ∈ media.filter
      (fun r => r.cycle == cycle && r.metabolite == met) := by
    rw [hfilter]
    exact List.mem_singleton.mpr rfl
  have hpred := List.of_mem_filter hrecmem
  rw [Bool.and_eq_true] at hpred
  have hcyceq : rec.cycle = cycle := by simpa using hpred.1
  have hcyc : ((media.map (fun r => r.cycle)).contains cycle) = true := by
    have hmem : cycle ∈ media.map (fun r => r.cycle) :=
      hcyceq ▸ List.mem_map_of_mem _ (List.mem_of_mem_filter hrecmem)
    simpa [List.contains] using hmem
  have hi : (rec.x - 1).toNat < nrows := by omega
  have hj : (rec.y - 1).toNat < ncols := by omega
  have hrow : (np_zeros nrows ncols).getD (rec.x - 1).toNat [] =
      List.replicate ncols 0 := np_zeros_getD nrows ncols hi
  refine ⟨(np_zeros nrows ncols).set (rec.x - 1).toNat
      ((List.replicate ncols (0 : ℚ)).set (rec.y - 1).toNat rec.conc_mmol),
    ?_, ?_⟩
  · unfold get_metabolite_image
    rw [hmet, hcyc, hfilter, if_neg (by simp), if_neg (by simp),
        if_neg (by simp), foldlM_singleton]
    rw [np_set_ok _ _ _ _ (by omega) (by rw [np_zeros_length]; omega)
        (by omega) (by rw [hrow, List.length_replicate]; omega)]
    rw [hrow]
  · intro a b
    exact grid_get_set_zeros nrows ncols _ _ rec.conc_mmol hi hj a b

/-- C4: grid reconstruction is zero-filled by default. For a valid
metabolite and recorded cycle with no matching records, the operation
returns a grid of the declared shape (rows x columns) that is zero in
every cell. -/
theorem metabolite_image_zero_filled
    (layout_media : List String) (nrows ncols : ℕ) (media : List MediaRow)
    (met : String) (cycle : ℤ)
    (hmet : layout_media.contains met = true)
    (hcyc : (media.map (fun r => r.cycle)).contains cycle = true)
    (hfilter : media.filter
        (fun r => r.cycle == cycle && r.metabolite == met) = []) :
    get_metabolite_image true layout_media (nrows, ncols) media met cycle =
        .ok (np_zeros nrows ncols) ∧
      (np_zeros nrows ncols).length = nrows ∧
      (∀ row ∈ np_zeros nrows ncols, row.length = ncols) ∧
      (∀ a b : ℕ, grid_get (np_zeros nrows ncols) a b = 0) := by
  refine ⟨?_, np_zeros_length nrows ncols, ?_,
    fun a b => grid_get_np_zeros nrows ncols a b⟩
  · unfold get_metabolite_image
    rw [hmet, hcyc, hfilter, if_neg (by simp), if_neg (by simp),
        if_neg (by simp), List.foldlM_nil]
    rfl
  · intro row hrow
    unfold np_zeros at hrow
    rw [List.eq_of_mem_replicate hrow]
    exact List.length_replicate ncols 0

/-- Witness for C4: requesting glucose at cycle 3 against a table whose
only cycle-3 record is for acetate yields the all-zero 2 x 2 grid. -/
theorem metabolite_image_zero_filled_witness :
    (["glc", "ace"] : List String).contains "glc" = true ∧
    (([⟨"ace", 3, 1, 1, 2⟩] : List MediaRow).map
        (fun r => r.cycle)).contains 3 = true ∧
    ([⟨"ace", 3, 1, 1, 2⟩] : List MediaRow).filter
        (fun r => r.cycle == (3 : ℤ) && r.metabolite == "glc") = [] ∧
    (get_metabolite_image true ["glc", "ace"] (2, 2)
        [⟨"ace", 3, 1, 1, 2⟩] "glc" 3 = .ok (np_zeros 2 2) ∧
      (np_zeros 2 2).length = 2 ∧
      (∀ row ∈ np_zeros 2 2, row.length = 2) ∧
      (∀ a b : ℕ, grid_get (np_zeros 2 2) a b = 0)) :=
  ⟨by decide, by decide, rfl,
    metabolite_image_zero_filled ["glc", "ace"] 2 2 [⟨"ace", 3, 1, 1, 2⟩]
      "glc" 3 (by decide) (by decide) rfl⟩

/-- Counterexample for C5: at a concrete query with an unknown metabolite,
the operation raises the Python builtin `NameError`, not the module's own
typed `UnallocatedMetabolite` (and the module defines no `UnknownEntity` or
`CycleNotRecorded` class at all). -/
theorem typed_failure_counterexample :
    get_metabolite_image true ["glc"] (2, 2) mediaGlc "unknown_met" 3 =
      .error (.nameError "met unknown_met is not in layout.media.metabolite") ∧
    ErrKind.nameError "met unknown_met is not in layout.media.metabolite" ≠
      ErrKind.unallocatedMetabolite :=
  ⟨rfl, by decide⟩

/-- C5 (amended): querying an unknown metabolite, model id or reaction id
raises the Python builtin `NameError`, and querying an unrecorded cycle
raises the builtin `ValueError`; no grid is returned in any of these
cases. -/
theorem typed_failures_amended :
    (∀ (lm : List String) (g : ℕ × ℕ) (media : List MediaRow) (met : String)
        (cyc : ℤ), lm.contains met = false →
      get_metabolite_image true lm g media met cyc =
        .error (.nameError
          ("met " ++ met ++ " is not in layout.media.metabolite"))) ∧
    (∀ (lm : List String) (g : ℕ × ℕ) (media : List MediaRow) (met : String)
        (cyc : ℤ), lm.contains met = true →
        (media.map (fun r => r.cycle)).contains cyc = false →
      get_metabolite_image true lm g media met cyc =
        .error (.valueError
          "media was not saved at the desired cycle. try another.")) ∧
    (∀ (mids : List String) (g : ℕ × ℕ) (bm : List BiomassRow) (mid : String)
        (cyc : ℤ), mids.contains mid = false →
      get_biomass_image true mids g bm mid cyc =
        .error (.nameError
          ("model " ++ mid ++ " is not one of the model ids"))) ∧
    (∀ (mids : List String) (g : ℕ × ℕ) (fbs : List (String × FluxTable))
        (mid rid : String) (cyc : ℚ), mids.contains mid = false →
      get_flux_image true mids g fbs mid rid cyc =
        .error (.nameError
          ("model " ++ mid ++ " is not one of the model ids"))) ∧
    (∀ (mids : List String) (g : ℕ × ℕ) (fbs : List (String × FluxTable))
        (mid rid : String) (cyc : ℚ) (t : FluxTable),
        mids.contains mid = true →
        dict_lookup fbs mid = some t →
        t.cols.contains "cycle" = true →
        ((t.rows.map (fun r => r.getD (t.cols.indexOf "cycle") 0)).contains
          cyc) = false →
      get_flux_image true mids g fbs mid rid cyc =
        .error (.valueError
          "flux was not saved at the desired cycle. try another.")) ∧
    (∀ (mids : List String) (g : ℕ × ℕ) (fbs : List (String × FluxTable))
        (mid rid : String) (cyc : ℚ) (t : FluxTable),
        mids.contains mid = true →
        dict_lookup fbs mid = some t →
        t.cols.contains "cycle" = true →
        ((t.rows.map (fun r => r.getD (t.cols.indexOf "cycle") 0)).contains
          cyc) = true →
        t.cols.contains rid = false →
      get_flux_image true mids g fbs mid rid cyc =
        .error (.nameError
          ("reaction_id " ++ rid ++
            " is not a reaction in the desired model"))) := by
  refine ⟨?_, ?_, ?_, ?_, ?_, ?_⟩
  · intro lm g media met cyc hmet
    unfold get_metabolite_image
    rw [hmet, if_neg (by simp), if_pos (by simp)]
  · intro lm g media met cyc hmet hcyc
    unfold get_metabolite_image
    rw [hmet, hcyc, if_neg (by simp), if_neg (by simp), if_pos (by simp)]
  · intro mids g bm mid cyc hmid
    unfold get_biomass_image
    rw [hmid, if_neg (by simp), if_pos (by simp)]
  · intro mids g fbs mid rid cyc hmid
    unfold get_flux_image
    rw [hmid, if_neg (by simp), if_pos (by simp)]
  · intro mids g fbs mid rid cyc t hmid hlk hcc hcyc
    unfold get_flux_image flux_table_col
    rw [hmid, hlk, if_neg (by simp), if_neg (by simp)]
    dsimp only
    rw [if_pos hcc]
    dsimp only
    rw [hcyc, if_pos (by simp)]
  · intro mids g fbs mid rid cyc t hmid hlk hcc hcyc hrid
    unfold get_flux_image flux_table_col
    rw [hmid, hlk, if_neg (by simp), if_neg (by simp)]
    dsimp only
    rw [if_pos hcc]
    dsimp only
    rw [hcyc, hrid, if_neg (by simp), if_pos (by simp)]

/-- Witness for the amended C5, one concrete query per failure shape. -/
theorem typed_failures_amended_witness :
    (get_metabolite_image true ["glc"] (2, 2) [] "bad" 0 =
      .error (.nameError "met bad is not in layout.media.metabolite")) ∧
    (get_metabolite_image true ["glc"] (2, 2) [] "glc" 0 =
      .error (.valueError
        "media was not saved at the desired cycle. try another.")) ∧
    (get_biomass_image true ["m1"] (2, 2) [] "bad" 0 =
      .error (.nameError "model bad is not one of the model ids")) ∧
    (get_flux_image true ["m1"] (2, 2) [] "bad" "r1" 0 =
      .error (.nameError "model bad is not one of the model ids")) ∧
    (get_flux_image true ["m1"] (2, 2)
        [("m1", ⟨["cycle", "x", "y", "r1"], []⟩)] "m1" "r1" 5 =
      .error (.valueError
        "flux was not saved at the desired cycle. try another.")) ∧
    (get_flux_image true ["m1"] (2, 2)
        [("m1", ⟨["cycle", "x", "y", "r1"], [[0, 1, 1, 2]]⟩)] "m1" "bad" 0 =
      .error (.nameError
        "reaction_id bad is not a reaction in the desired model")) :=
  ⟨typed_failures_amended.1 ["glc"] (2, 2) [] "bad" 0 (by decide),
   typed_failures_amended.2.1 ["glc"] (2, 2) [] "glc" 0 (by decide) (by decide),
   typed_failures_amended.2.2.1 ["m1"] (2, 2) [] "bad" 0 (by decide),
   typed_failures_amended.2.2.2.1 ["m1"] (2, 2) [] "bad" "r1" 0 (by decide),
   typed_failures_amended.2.2.2.2.1 ["m1"] (2, 2)
     [("m1", ⟨["cycle", "x", "y", "r1"], []⟩)] "m1" "r1" 5 ⟨["cycle", "x", "y", "r1"], []⟩
     (by decide) rfl (by decide) (by decide),
   typed_failures_amended.2.2.2.2.2 ["m1"] (2, 2)
     [("m1", ⟨["cycle", "x", "y", "r1"], [[0, 1, 1, 2]]⟩)] "m1" "bad" 0
     ⟨["cycle", "x", "y", "r1"], [[0, 1, 1, 2]]⟩
     (by decide) rfl (by decide) (by decide) (by decide)⟩

/-- Counterexample for C6: on a missing file the reader fails with the
Python builtin `FileNotFoundError` raised by `open`, which is none of the
exception classes the module defines (`CorruptLine`, `OutOfGrid`,
`UnallocatedMetabolite`); the module defines no `MissingLogFile` class. -/
theorem missing_log_counterexample :
    readlines_file [] "total_biomass_log_0x1" =
      .error (.fileNotFoundError "total_biomass_log_0x1") ∧
    ErrKind.fileNotFoundError "total_biomass_log_0x1" ≠ ErrKind.corruptLine ∧
    ErrKind.fileNotFoundError "total_biomass_log_0x1" ≠ ErrKind.outOfGrid ∧
    ErrKind.fileNotFoundError "total_biomass_log_0x1" ≠
      ErrKind.unallocatedMetabolite :=
  ⟨rfl, by decide, by decide, by decide⟩

/-- C6 (amended): when a requested log file is absent, the reader fails
immediately with the Python builtin `FileNotFoundError` for that path. -/
theorem missing_log_file_not_found
    (fs : List (String × List String)) (filename : String)
    (h : fs.find? (fun p => p.1 == filename) = none) :
    readlines_file fs filename = .error (.fileNotFoundError filename) := by
  unfold readlines_file
  rw [h]

/-- Witness for the amended C6 on an empty filesystem. -/
theorem missing_log_file_not_found_witness :
    (([] : List (String × List String)).find?
        (fun p => p.1 == "flux_log_0x1") = none) ∧
    readlines_file [] "flux_log_0x1" =
      .error (.fileNotFoundError "flux_log_0x1") :=
  ⟨rfl, missing_log_file_not_found [] "flux_log_0x1" rfl⟩

/-- C8: `get_biomass_image` called with a valid model id (one of the layout
model ids, but not one of the fixed biomass columns
`cycle, x, y, species, biomass`) and a recorded cycle raises a key-lookup
failure instead of returning a grid, because the loop reads
`row[model_id]` from a table without that column. -/
theorem biomass_image_key_error
    (model_ids : List String) (g : ℕ × ℕ) (biomass : List BiomassRow)
    (model_id : String) (cycle : ℤ)
    (hmid : model_ids.contains model_id = true)
    (hnot : model_id ∉ (["cycle", "x", "y", "species", "biomass"] :
      List String))
    (hcyc : (biomass.map (fun r => r.cycle)).contains cycle = true) :
    get_biomass_image true model_ids g biomass model_id cycle =
      .error (.keyError model_id) := by
  simp only [List.mem_cons, List.mem_singleton, not_or] at hnot
  have hmemc : cycle ∈ biomass.map (fun r => r.cycle) := by
    simpa [List.contains] using hcyc
  rcases List.mem_map.mp hmemc with ⟨r0, hr0, hr0c⟩
  have hfmem : r0 ∈ biomass.filter (fun r => r.cycle == cycle) :=
    List.mem_filter.mpr ⟨hr0, by simp [hr0c]⟩
  cases hfl : biomass.filter (fun r => r.cycle == cycle) with
  | nil =>
    rw [hfl] at hfmem
    cases hfmem
  | cons rh rt =>
    have hbg : biomass_row_get rh model_id = .error (.keyError model_id) := by
      unfold biomass_row_get
      rw [if_neg (by simp [hnot.1]), if_neg (by simp [hnot.2.1]),
          if_neg (by simp [hnot.2.2.1]), if_neg (by simp [hnot.2.2.2.1]),
          if_neg (by simp [hnot.2.2.2.2])]
    unfold get_biomass_image
    rw [hmid, hcyc, hfl, if_neg (by simp), if_neg (by simp),
        if_neg (by simp), List.foldlM_cons]
    simp only [hbg]
    rfl

/-- Witness for C8: a valid model id against the concrete biomass table. -/
theorem biomass_image_key_error_witness :
    (["Escherichia_coli"] : List String).contains "Escherichia_coli" = true ∧
    "Escherichia_coli" ∉ (["cycle", "x", "y", "species", "biomass"] :
      List String) ∧
    (biomassSample.map (fun r => r.cycle)).contains 0 = true ∧
    get_biomass_image true ["Escherichia_coli"] (2, 2) biomassSample
      "Escherichia_coli" 0 = .error (.keyError "Escherichia_coli") :=
  ⟨by decide, by decide, by decide,
    biomass_image_key_error ["Escherichia_coli"] (2, 2) biomassSample
      "Escherichia_coli" 0 (by decide) (by decide) (by decide)⟩

/-- A biomass row access can only fail with `KeyError` on the requested
column. -/
lemma biomass_row_get_error (r : BiomassRow) (col : String) (e : ErrKind)
    (h : biomass_row_get r col = .error e) : e = .keyError col := by
  unfold biomass_row_get at h
  repeat' split at h
  all_goals first
    | exact Except.noConfusion h
    | exact ((Except.error.injEq _ _).mp h).symm

/-- A flux row access can only fail with `KeyError` on the requested
column. -/
lemma flux_row_get_error (t : FluxTable) (r : List ℚ) (col : String)
    (e : ErrKind) (h : flux_row_get t r col = .error e) :
    e = .keyError col := by
  unfold flux_row_get at h
  split at h
  · exact Except.noConfusion h
  · exact ((Except.error.injEq _ _).mp h).symm

/-- A flux column access can only fail with `KeyError` on the requested
column. -/
lemma flux_table_col_error (t : FluxTable) (col : String) (e : ErrKind)
    (h : flux_table_col t col = .error e) : e = .keyError col := by
  unfold flux_table_col at h
  split at h
  · exact Except.noConfusion h
  · exact ((Except.error.injEq _ _).mp h).symm

/-- One demultiplexer loop iteration can only fail with the pandas
column-length `ValueError`. -/
lemma build_model_flux_table_error (fluxes : RawDF) (models : List Model)
    (i : ℕ) (e : ErrKind) (h : build_model_flux_table fluxes models i = .error e) :
    e = .valueError "Length mismatch" := by
  unfold build_model_flux_table set_columns at h
  dsimp only at h
  split at h
  · exact Except.noConfusion h
  · exact ((Except.error.injEq _ _).mp h).symm

/-- Writing at row index `-1` of the zero grid wraps to the last row. -/
lemma np_set_zeros_neg_one (nrows ncols : ℕ) (b : ℤ) (v : ℚ)
    (hn : 1 ≤ nrows) (hb0 : 0 ≤ b) (hblt : b < (ncols : ℤ)) :
    np_set (np_zeros nrows ncols) (-1) b v =
      .ok ((np_zeros nrows ncols).set (nrows - 1)
        ((List.replicate ncols (0 : ℚ)).set b.toNat v)) := by
  unfold np_set
  rw [np_zeros_length, np_index_neg_one nrows hn]
  dsimp only
  rw [np_zeros_getD nrows ncols (show nrows - 1 < nrows by omega)]
  rw [List.length_replicate, np_index_of_nonneg _ _ hb0 hblt]

/-- C9: no grid-reconstruction operation ever raises `OutOfGrid` (the class
is defined but raised nowhere), and a record with `x = 0` is silently
written into the last grid row through NumPy negative indexing instead of
being rejected. -/
theorem out_of_grid_never_raised :
    (∀ (flag : Bool) (lm : List String) (g : ℕ × ℕ) (media : List MediaRow)
        (met : String) (cyc : ℤ),
      get_metabolite_image flag lm g media met cyc ≠ .error .outOfGrid) ∧
    (∀ (flag : Bool) (mids : List String) (g : ℕ × ℕ) (bm : List BiomassRow)
        (mid : String) (cyc : ℤ),
      get_biomass_image flag mids g bm mid cyc ≠ .error .outOfGrid) ∧
    (∀ (flag : Bool) (mids : List String) (g : ℕ × ℕ)
        (fbs : List (String × FluxTable)) (mid rid : String) (cyc : ℚ),
      get_flux_image flag mids g fbs mid rid cyc ≠ .error .outOfGrid) ∧
    (∀ (fluxes : RawDF) (models : List Model),
      build_readable_flux_object fluxes models ≠ .error .outOfGrid) ∧
    (∀ (fs : List (String × List String)) (f : String),
      readlines_file fs f ≠ .error .outOfGrid) ∧
    (∀ (lm : List String) (nrows ncols : ℕ) (media : List MediaRow)
        (met : String) (cyc : ℤ) (rec : MediaRow),
      lm.contains met = true →
      media.filter (fun r => r.cycle == cyc && r.metabolite == met) = [rec] →
      rec.x = 0 → 1 ≤ nrows → 1 ≤ rec.y → rec.y ≤ (ncols : ℤ) →
      ∃ im, get_metabolite_image true lm (nrows, ncols) media met cyc =
          .ok im ∧
        grid_get im (nrows - 1) (rec.y - 1).toNat = rec.conc_mmol) := by
  refine ⟨?_, ?_, ?_, ?_, ?_, ?_⟩
  · intro flag lm g media met cyc h
    unfold get_metabolite_image at h
    split at h
    · exact absurd h (by simp)
    · split at h
      · exact absurd h (by simp)
      · split at h
        · exact absurd h (by simp)
        · have hP := foldlM_error_step _ (fun e => e = ErrKind.indexError)
            (fun b a e hs => np_set_error _ _ _ _ _ hs) _ _ _ h
          exact absurd hP (by decide)
  · intro flag mids g bm mid cyc h
    unfold get_biomass_image at h
    split at h
    · exact absurd h (by simp)
    · split at h
      · exact absurd h (by simp)
      · split at h
        · exact absurd h (by simp)
        · have hstep : ∀ (b : List (List ℚ)) (a : BiomassRow) (e : ErrKind),
              (do
                let v ← biomass_row_get a mid
                np_set b (a.x - 1) (a.y - 1) v) = .error e →
              (e = ErrKind.keyError mid ∨ e = ErrKind.indexError) := by
            intro b a e hs
            cases hbg : biomass_row_get a mid with
            | error e2 =>
              rw [hbg] at hs
              have h2 : (Except.error e2 : Except ErrKind (List (List ℚ))) =
                  .error e := hs
              have h3 : e2 = e := (Except.error.injEq _ _).mp h2
              exact Or.inl (h3 ▸ biomass_row_get_error a mid e2 hbg)
            | ok v =>
              rw [hbg] at hs
              exact Or.inr (np_set_error _ _ _ _ _ hs)
          have hP := foldlM_error_step _ _ hstep _ _ _ h
          rcases hP with h1 | h1 <;> simp at h1
  · intro flag mids g fbs mid rid cyc h
    unfold get_flux_image at h
    split at h
    · exact absurd h (by simp)
    · split at h
      · exact absurd h (by simp)
      · split at h
        · exact absurd h (by simp)
        · rename_i t hlk
          split at h
          · rename_i e2 hcol
            rw [flux_table_col_error _ _ _ hcol] at h
            exact absurd h (by simp)
          · rename_i cycles hcol
            split at h
            · exact absurd h (by simp)
            · split at h
              · exact absurd h (by simp)
              · have hstep : ∀ (b : List (List ℚ)) (a : List ℚ) (e : ErrKind),
                    (do
                      let x ← flux_row_get t a "x"
                      let y ← flux_row_get t a "y"
                      let v ← flux_row_get t a rid
                      np_set b (pyInt (x - 1)) (pyInt (y - 1)) v) = .error e →
                    (e = ErrKind.keyError "x" ∨ e = ErrKind.keyError "y" ∨
                     e = ErrKind.keyError rid ∨ e = ErrKind.indexError) := by
                  intro b a e hs
                  cases h1 : flux_row_get t a "x" with
                  | error e1 =>
                    rw [h1] at hs
                    have h2 : (Except.error e1 :
                        Except ErrKind (List (List ℚ))) = .error e := hs
                    have h3 : e1 = e := (Except.error.injEq _ _).mp h2
                    exact Or.inl (h3 ▸ flux_row_get_error t a "x" e1 h1)
                  | ok xv =>
                    rw [h1] at hs
                    cases h4 : flux_row_get t a "y" with
                    | error e1 =>
                      rw [h4] at hs
                      have h2 : (Except.error e1 :
                          Except ErrKind (List (List ℚ))) = .error e := hs
                      have h3 : e1 = e := (Except.error.injEq _ _).mp h2
                      exact Or.inr (Or.inl
                        (h3 ▸ flux_row_get_error t a "y" e1 h4))
                    | ok yv =>
                      rw [h4] at hs
                      cases h5 : flux_row_get t a rid with
                      | error e1 =>
                        rw [h5] at hs
                        have h2 : (Except.error e1 :
                            Except ErrKind (List (List ℚ))) = .error e := hs
                        have h3 : e1 = e := (Except.error.injEq _ _).mp h2
                        exact Or.inr (Or.inr (Or.inl
                          (h3 ▸ flux_row_get_error t a rid e1 h5)))
                      | ok vv =>
                        rw [h5] at hs
                        have h6 : np_set b (pyInt (xv - 1)) (pyInt (yv - 1))
                            vv = .error e := hs
                        exact Or.inr (Or.inr (Or.inr
                          (np_set_error _ _ _ _ _ h6)))
                have hP := foldlM_error_step _ _ hstep _ _ _ h
                rcases hP with h1 | h1 | h1 | h1 <;> simp at h1
  · intro fluxes models h
    unfold build_readable_flux_object at h
    have hstep : ∀ (d : List (String × FluxTable)) (i : ℕ) (e : ErrKind),
        (do
          let t ← build_model_flux_table fluxes models i
          pure (dict_insert d (models.getD i default).id t)) = .error e →
        e = ErrKind.valueError "Length mismatch" := by
      intro d i e hs
      cases hb : build_model_flux_table fluxes models i with
      | error e2 =>
        rw [hb] at hs
        have h2 : (Except.error e2 :
            Except ErrKind (List (String × FluxTable))) = .error e := hs
        have h3 : e2 = e := (Except.error.injEq _ _).mp h2
        exact h3 ▸ build_model_flux_table_error fluxes models i e2 hb
      | ok t =>
        rw [hb] at hs
        exact Except.noConfusion hs
    have hP := foldlM_error_step _ _ hstep _ _ _ h
    exact absurd hP (by decide)
  · intro fs f h
    unfold readlines_file at h
    split at h
    · exact Except.noConfusion h
    · exact absurd h (by simp)
  · intro lm nrows ncols media met cyc rec hmet hfilter hx0 hn hy1 hyc
    have hrecmem : rec ∈ media.filter
        (fun r => r.cycle == cyc && r.metabolite == met) := by
      rw [hfilter]
      exact List.mem_singleton.mpr rfl
    have hpred := List.of_mem_filter hrecmem
    rw [Bool.and_eq_true] at hpred
    have hcyceq : rec.cycle = cyc := by simpa using hpred.1
    have hcyc : ((media.map (fun r => r.cycle)).contains cyc) = true := by
      have hmem : cyc ∈ media.map (fun r => r.cycle) :=
        hcyceq ▸ List.mem_map_of_mem _ (List.mem_of_mem_filter hrecmem)
      simpa [List.contains] using hmem
    have hj : (rec.y - 1).toNat < ncols := by omega
    refine ⟨(np_zeros nrows ncols).set (nrows - 1)
        ((List.replicate ncols (0 : ℚ)).set (rec.y - 1).toNat rec.conc_mmol),
      ?_, ?_⟩
    · unfold get_metabolite_image
      rw [hmet, hcyc, hfilter, if_neg (by simp), if_neg (by simp),
          if_neg (by simp), foldlM_singleton]
      rw [show rec.x - 1 = (-1 : ℤ) by omega]
      rw [np_set_zeros_neg_one nrows ncols _ _ hn (by omega) (by omega)]
    · rw [grid_get_set_zeros nrows ncols _ _ rec.conc_mmol (by omega) hj]
      rw [if_pos ⟨rfl, rfl⟩]

/-- Witness for C9: a concrete query never yields `OutOfGrid`, and the
concrete `x = 0` record lands in the last row of a 3 x 3 grid. -/
theorem out_of_grid_never_raised_witness :
    (get_metabolite_image true ["glc"] (2, 2) [] "glc" 0 ≠
      .error .outOfGrid) ∧
    (["glc"] : List String).contains "glc" = true ∧
    mediaZeroX.filter
        (fun r => r.cycle == (1 : ℤ) && r.metabolite == "glc") =
      [⟨"glc", 1, 0, 2, 4⟩] ∧
    (∃ im, get_metabolite_image true ["glc"] (3, 3) mediaZeroX "glc" 1 =
        .ok im ∧
      grid_get im (3 - 1) (((2 : ℤ) - 1)).toNat = 4) :=
  ⟨out_of_grid_never_raised.1 true ["glc"] (2, 2) [] "glc" 0,
   by decide, rfl,
   out_of_grid_never_raised.2.2.2.2.2 ["glc"] 3 3 mediaZeroX "glc" 1
     ⟨"glc", 1, 0, 2, 4⟩ (by decide) rfl rfl (by decide) (by decide)
     (by decide)⟩

/-- Python `int()` of a rational that is an integer cast. -/
lemma pyInt_intCast (n : ℤ) : pyInt ((n : ℤ) : ℚ) = n := by
  unfold pyInt
  rw [Rat.num_intCast, Rat.den_intCast]
  simp

/-- Evaluating the code's `int(coord - 1)` on an integer-valued rational
coordinate. -/
lemma pyInt_cast_sub_one (n : ℤ) : pyInt (((n : ℤ) : ℚ) - 1) = n - 1 := by
  have hcast : (((n : ℤ) : ℚ) - 1) = (((n - 1 : ℤ)) : ℚ) := by
    push_cast
    ring
  rw [hcast, pyInt_intCast]

/-- Single-record coordinate correctness for `get_flux_image` on a
one-reaction table: with exactly one row matching the requested cycle and
in-range integer coordinates, the grid holds the row's flux value at
0-based cell (x-1, y-1) and zero elsewhere. -/
lemma flux_image_single_record
    (mids : List String) (nrows ncols : ℕ) (fbs : List (String × FluxTable))
    (t : FluxTable) (mid rid : String) (cyc : ℚ) (row : List ℚ) (x y : ℤ)
    (v : ℚ)
    (hmid : mids.contains mid = true)
    (hlk : dict_lookup fbs mid = some t)
    (hcols : t.cols = ["cycle", "x", "y", rid])
    (hne1 : rid ≠ "cycle") (hne2 : rid ≠ "x") (hne3 : rid ≠ "y")
    (hfilt : t.rows.filter
        (fun r => r.getD (t.cols.indexOf "cycle") 0 == cyc) = [row])
    (hrow : row = [cyc, ((x : ℤ) : ℚ), ((y : ℤ) : ℚ), v])
    (hx1 : 1 ≤ x) (hxr : x ≤ (nrows : ℤ))
    (hy1 : 1 ≤ y) (hyc : y ≤ (ncols : ℤ)) :
    ∃ im, get_flux_image true mids (nrows, ncols) fbs mid rid cyc = .ok im ∧
      ∀ a b : ℕ, grid_get im a b =
        if a = (x - 1).toNat ∧ b = (y - 1).toNat then v else 0 := by
  have hrowmem : row ∈ t.rows.filter
      (fun r => r.getD (t.cols.indexOf "cycle") 0 == cyc) := by
    rw [hfilt]
    exact List.mem_singleton.mpr rfl
  have hpred := List.of_mem_filter hrowmem
  have hcyccontains : ((t.rows.map
      (fun r => r.getD (t.cols.indexOf "cycle") 0)).contains cyc) = true := by
    have heq : row.getD (t.cols.indexOf "cycle") 0 = cyc := by simpa using hpred
    have hmem : cyc ∈ t.rows.map (fun r => r.getD (t.cols.indexOf "cycle") 0) :=
      heq ▸ List.mem_map_of_mem _ (List.mem_of_mem_filter hrowmem)
    simpa [List.contains] using hmem
  have hccycle : t.cols.contains "cycle" = true := by rw [hcols]; rfl
  have hcx : t.cols.contains "x" = true := by rw [hcols]; rfl
  have hcy : t.cols.contains "y" = true := by rw [hcols]; rfl
  have hcrid : t.cols.contains rid = true := by
    rw [hcols]
    simp [List.contains]
  have hix : t.cols.indexOf "x" = 1 := by rw [hcols]; rfl
  have hiy : t.cols.indexOf "y" = 2 := by rw [hcols]; rfl
  have hirid : t.cols.indexOf rid = 3 := by
    have e1 : ("cycle" == rid) = false := by simpa using (Ne.symm hne1)
    have e2 : ("x" == rid) = false := by simpa using (Ne.symm hne2)
    have e3 : ("y" == rid) = false := by simpa using (Ne.symm hne3)
    rw [hcols]
    simp [List.indexOf_cons, e1, e2, e3]
  have hgx : flux_row_get t row "x" = .ok ((x : ℤ) : ℚ) := by
    unfold flux_row_get
    rw [if_pos hcx, hix, hrow]
    rfl
  have hgy : flux_row_get t row "y" = .ok ((y : ℤ) : ℚ) := by
    unfold flux_row_get
    rw [if_pos hcy, hiy, hrow]
    rfl
  have hgv : flux_row_get t row rid = .ok v := by
    unfold flux_row_get
    rw [if_pos hcrid, hirid, hrow]
    rfl
  have hi : (x - 1).toNat < nrows := by omega
  have hj : (y - 1).toNat < ncols := by omega
  have hrowz : (np_zeros nrows ncols).getD (x - 1).toNat [] =
      List.replicate ncols 0 := np_zeros_getD nrows ncols hi
  refine ⟨(np_zeros nrows ncols).set (x - 1).toNat
      ((List.replicate ncols (0 : ℚ)).set (y - 1).toNat v), ?_, ?_⟩
  · unfold get_flux_image flux_table_col
    rw [hmid, hlk, if_neg (by simp), if_neg (by simp)]
    dsimp only
    rw [if_pos hccycle]
    dsimp only
    rw [hcyccontains, hcrid, if_neg (by simp), if_neg (by simp), hfilt,
        foldlM_singleton]
    rw [hgx, hgy, hgv]
    show np_set (np_zeros nrows ncols) (pyInt (((x : ℤ) : ℚ) - 1))
        (pyInt (((y : ℤ) : ℚ) - 1)) v = _
    rw [pyInt_cast_sub_one x, pyInt_cast_sub_one y]
    rw [np_set_ok _ _ _ _ (by omega) (by rw [np_zeros_length]; omega)
        (by omega) (by rw [hrowz, List.length_replicate]; omega)]
    rw [hrowz]
  · intro a b
    exact grid_get_set_zeros nrows ncols _ _ v hi hj a b

/-- C3: grid reconstruction is coordinate-correct for both the media and
the flux reconstructors. A record matching the requested cycle (and, for
media the requested metabolite, for flux the requested model and reaction)
has its value written into the dense grid at 0-based cell (x-1, y-1),
converting the record's 1-based coordinates, and into no other cell. -/
theorem grid_reconstruction_coordinate_correct :
    (∀ (layout_media : List String) (nrows ncols : ℕ) (media : List MediaRow)
        (met : String) (cycle : ℤ) (rec : MediaRow),
      layout_media.contains met = true →
      media.filter (fun r => r.cycle == cycle && r.metabolite == met) =
        [rec] →
      1 ≤ rec.x → rec.x ≤ (nrows : ℤ) → 1 ≤ rec.y → rec.y ≤ (ncols : ℤ) →
      ∃ im, get_metabolite_image true layout_media (nrows, ncols) media met
          cycle = .ok im ∧
        ∀ a b : ℕ, grid_get im a b =
          if a = (rec.x - 1).toNat ∧ b = (rec.y - 1).toNat then
            rec.conc_mmol
          else 0) ∧
    (∀ (mids : List String) (nrows ncols : ℕ)
        (fbs : List (String × FluxTable)) (t : FluxTable) (mid rid : String)
        (cyc : ℚ) (row : List ℚ) (x y : ℤ) (v : ℚ),
      mids.contains mid = true →
      dict_lookup fbs mid = some t →
      t.cols = ["cycle", "x", "y", rid] →
      rid ≠ "cycle" → rid ≠ "x" → rid ≠ "y" →
      t.rows.filter
        (fun r => r.getD (t.cols.indexOf "cycle") 0 == cyc) = [row] →
      row = [cyc, ((x : ℤ) : ℚ), ((y : ℤ) : ℚ), v] →
      1 ≤ x → x ≤ (nrows : ℤ) → 1 ≤ y → y ≤ (ncols : ℤ) →
      ∃ im, get_flux_image true mids (nrows, ncols) fbs mid rid cyc =
          .ok im ∧
        ∀ a b : ℕ, grid_get im a b =
          if a = (x - 1).toNat ∧ b = (y - 1).toNat then v else 0) :=
  ⟨fun layout_media nrows ncols media met cycle rec hmet hfilter hx1 hxr hy1
      hyc =>
    metabolite_image_single_record layout_media nrows ncols media met cycle
      rec hmet hfilter hx1 hxr hy1 hyc,
   fun mids nrows ncols fbs t mid rid cyc row x y v hmid hlk hcols hne1 hne2
      hne3 hfilt hrow hx1 hxr hy1 hyc =>
    flux_image_single_record mids nrows ncols fbs t mid rid cyc row x y v
      hmid hlk hcols hne1 hne2 hne3 hfilt hrow hx1 hxr hy1 hyc⟩

/-- Witness for C3 at the spec example: a record at cycle 3, cell
(2, 5), value 7.5 populates only 0-based cell (1, 4), for both the media
and the flux reconstructors on a 5 x 5 grid. -/
theorem grid_reconstruction_coordinate_correct_witness :
    (["glc"] : List String).contains "glc" = true ∧
    mediaGlc.filter
        (fun r => r.cycle == (3 : ℤ) && r.metabolite == "glc") =
      [⟨"glc", 3, 2, 5, 7.5⟩] ∧
    (∃ im, get_metabolite_image true ["glc"] (5, 5) mediaGlc "glc" 3
        = .ok im ∧
      ∀ a b : ℕ, grid_get im a b =
        if a = ((2 : ℤ) - 1).toNat ∧ b = ((5 : ℤ) - 1).toNat then (7.5 : ℚ)
        else 0) ∧
    (∃ im, get_flux_image true ["modA"] (5, 5)
        [("modA", ⟨["cycle", "x", "y", "r1"], [[3, 2, 5, 7.5]]⟩)]
        "modA" "r1" 3 = .ok im ∧
      ∀ a b : ℕ, grid_get im a b =
        if a = ((2 : ℤ) - 1).toNat ∧ b = ((5 : ℤ) - 1).toNat then (7.5 : ℚ)
        else 0) :=
  ⟨by decide, rfl,
   grid_reconstruction_coordinate_correct.1 ["glc"] 5 5 mediaGlc "glc" 3
     ⟨"glc", 3, 2, 5, 7.5⟩ (by decide) rfl (by decide) (by decide)
     (by decide) (by decide),
   grid_reconstruction_coordinate_correct.2 ["modA"] 5 5
     [("modA", ⟨["cycle", "x", "y", "r1"], [[3, 2, 5, 7.5]]⟩)]
     ⟨["cycle", "x", "y", "r1"], [[3, 2, 5, 7.5]]⟩ "modA" "r1" 3
     [3, 2, 5, 7.5] 2 5 7.5 (by decide) rfl rfl (by decide) (by decide)
     (by decide) rfl (by norm_num) (by decide) (by decide) (by decide)
     (by decide)⟩
